import Mathlib

/-!
Verification of the pip package-manager core of ramble
(`var/ramble/repos/builtin/package_managers/pip/package_manager.py`).

The embedding models:
* `PipRunner` — the runner state (`env_path`, `dry_run`, `specs`, `installed`);
* `FS` — a shadowing association list from paths to nodes (files with
  content and mtime, or directories), together with a logical clock that
  supplies strictly increasing modification times;
* `Effect` — the trace of external process invocations a call performs;
* the runner operations `create_env`, `add_spec`, `generate_requirement_file`,
  `install`, `get_version`, `inventory_hash` and the check
  `check_env_configured`, translated statement by statement from the source;
* the orchestrator phases `software_create_env` and `software_install`
  with the workspace phase cache.

Python raising an exception is modelled with `Except Err`; mutations
performed before a raise are kept in the returned state, as in Python.
-/

/-- Strict lexicographic comparison of character lists by code point.
Python compares strings exactly this way, so `sorted` on a set of spec
strings orders them by this relation. -/
def strLtChars : List Char → List Char → Bool
  | [], [] => false
  | [], _ :: _ => true
  | _ :: _, [] => false
  | a :: as, b :: bs =>
    if a < b then true
    else if b < a then false
    else strLtChars as bs

/-- Python string `<` (code-point lexicographic). -/
def pyStrLt (a b : String) : Bool := strLtChars a.data b.data

/-- Python string `<=`, the order used by `sorted`. -/
def pyStrLe (a b : String) : Bool := pyStrLt a b || a == b

/-- The sort order of Python `sorted` on strings, as a `Prop`-valued
relation for `List.insertionSort`. -/
def specLe (a b : String) : Prop := pyStrLe a b = true

instance : DecidableRel specLe :=
fun a b => inferInstanceAs (Decidable (pyStrLe a b = true))

/-- `os.path.join` for the fixed relative components used by the runner. -/
def pathJoin (a b : String) : String := a ++ "/" ++ b

/-- `os.path.join(env_path, PipRunner._venv_name)`. -/
def venvPath (p : String) : String := pathJoin p ".venv"

/-- `PipRunner._get_activate_script_path`. -/
def activateScriptPath (p : String) : String :=
  pathJoin (pathJoin (venvPath p) "bin") "activate"

/-- `os.path.join(env_path, PipRunner._requirement_file_name)`. -/
def requirementFilePath (p : String) : String := pathJoin p "requirements.txt"

/-- `os.path.join(env_path, PipRunner._lock_file_name)`. -/
def lockFilePath (p : String) : String := pathJoin p "requirements.lock"

/-- A filesystem node: a regular file with content and mtime, or a
directory with an mtime. -/
inductive Node
  | file (content : String) (mtime : Nat)
  | dir (mtime : Nat)
  deriving DecidableEq, Repr

/-- Modification time of a node (`os.path.getmtime`). -/
def Node.mtime : Node → Nat
  | .file _ m => m
  | .dir m => m

/-- A filesystem: a shadowing association list of paths to nodes plus a
logical clock used as the mtime of newly written entries, so successive
writes have strictly increasing modification times. -/
structure FS where
  entries : List (String × Node)
  clock : Nat
  deriving DecidableEq, Repr

/-- Node stored at a path (first, i.e. most recent, entry wins). -/
def FS.nodeAt (fs : FS) (p : String) : Option Node :=
  (fs.entries.find? (fun e => e.1 == p)).map (fun e => e.2)

/-- `os.path.exists`. -/
def FS.existsPath (fs : FS) (p : String) : Bool := (fs.nodeAt p).isSome

/-- `os.path.isdir`. -/
def FS.isDirAt (fs : FS) (p : String) : Bool :=
  match fs.nodeAt p with
  | some (.dir _) => true
  | _ => false

/-- Content of the regular file at a path, if any (`open(p).read()`). -/
def FS.readFile (fs : FS) (p : String) : Option String :=
  match fs.nodeAt p with
  | some (.file c _) => some c
  | _ => none

/-- `os.path.getmtime`, defaulting to 0 on missing paths (only ever used
under an existence check, as in the source). -/
def FS.mtimeD (fs : FS) (p : String) : Nat :=
  ((fs.nodeAt p).map Node.mtime).getD 0

/-- Install or replace the node at a path, stamping it with the current
clock and advancing the clock. -/
def FS.setEntry (fs : FS) (p : String) (n : Node) : FS :=
  { entries := (p, n) :: fs.entries, clock := fs.clock + 1 }

/-- `open(p, "w").write(c)`: store a file with the current clock as mtime. -/
def FS.write (fs : FS) (p c : String) : FS := fs.setEntry p (.file c fs.clock)

/-- `llnl.util.filesystem.mkdirp`. -/
def FS.mkdirp (fs : FS) (p : String) : FS := fs.setEntry p (.dir fs.clock)

/-- External process invocations a runner call performs. -/
inductive Effect
  | venvBootstrap (venvDir : String)
  | pipInstall (reqFile : String)
  | pipFreeze (reqFile : String)
  deriving DecidableEq, Repr

/-- The `RunnerError` exceptions raised in the source, one constructor per
raise site. -/
inductive RunnerError
  | envPathNotConfigured
  | venvNotConfigured
  | pathConflict (path : String)
  | missingRequirementFile (path : String)
  deriving DecidableEq, Repr

/-- Exceptions observable from the modelled code: the program's
`RunnerError` and `ApplicationError`, and the Python builtin exceptions
that escape on degenerate inputs. -/
inductive Err
  | runner (e : RunnerError)
  | applicationError
  | attributeError
  | isADirectoryError
  | fileNotFoundError
  deriving DecidableEq, Repr

/-- The mutable state of a `PipRunner` instance. The resolved bootstrap
interpreter (`bs_python`) is an external executable and carries no state
the claims mention; the `configs` field is never read in the source. -/
structure PipRunner where
  env_path : Option String
  dry_run : Bool
  specs : List String
  installed : Bool
  deriving DecidableEq, Repr

deriving instance DecidableEq for Except

/-- Result of one runner operation: the Python return-or-raise outcome,
the runner state after the call, the filesystem after the call, and the
external processes invoked. -/
structure StepResult where
  result : Except Err Unit
  runner : PipRunner
  fs : FS
  effects : List Effect
  deriving DecidableEq, Repr

/-- `set.add`: deduplicating insertion into the spec collection. -/
def addSpecPure (specs : List String) (s : String) : List String :=
  if s ∈ specs then specs else specs ++ [s]

/-- The spec set obtained from a sequence of additions into a fresh
runner. -/
def specsAfter (l : List String) : List String := l.foldl addSpecPure []

/-- `PipRunner.configure_env`. -/
def PipRunner.configure_env (r : PipRunner) (p : String) : PipRunner :=
  { r with env_path := some p }

/-- `PipRunner.set_dry_run`. -/
def PipRunner.set_dry_run (r : PipRunner) (b : Bool) : PipRunner :=
  { r with dry_run := b }

/-- `PipRunner._check_env_configured`: `env_path` must be set and truthy;
in real mode the venv activate script must also exist. -/
def PipRunner.check_env_configured (r : PipRunner) (fs : FS) : Except Err Unit :=
  match r.env_path with
  | none => .error (.runner .envPathNotConfigured)
  | some p =>
    if p = "" then .error (.runner .envPathNotConfigured)
    else if r.dry_run then .ok ()
    else if fs.existsPath (activateScriptPath p) then .ok ()
    else .error (.runner .venvNotConfigured)

/-- `PipRunner.create_env`. The venv bootstrap run by the external
interpreter is modelled from the spec: bootstrapping the runtime
subdirectory materializes the `.venv` directory and its `bin/activate`
script on disk. -/
def PipRunner.create_env (r : PipRunner) (fs : FS) (env_path : String) : StepResult :=
  if fs.existsPath env_path && !fs.isDirAt env_path then
    ⟨.error (.runner (.pathConflict env_path)), r, fs, []⟩
  else
    let fs1 := if fs.existsPath env_path then fs else fs.mkdirp env_path
    let r1 := { r with env_path := some env_path }
    if r.dry_run then ⟨.ok (), r1, fs1, []⟩
    else if fs1.existsPath (venvPath env_path) then ⟨.ok (), r1, fs1, []⟩
    else
      let fs2 := (fs1.mkdirp (venvPath env_path)).write (activateScriptPath env_path) ""
      ⟨.ok (), r1, fs2, [.venvBootstrap (venvPath env_path)]⟩

/-- `PipRunner._generate_requirement_content`: the specs, sorted the way
Python `sorted` sorts strings, joined by `os.linesep` (newline on the
POSIX platforms the tool targets) with a trailing newline. -/
def generate_requirement_content (specs : List String) : String :=
  String.intercalate "\n" (specs.insertionSort specLe) ++ "\n"

/-- `PipRunner.add_spec`. -/
def PipRunner.add_spec (r : PipRunner) (fs : FS) (spec : String) : StepResult :=
  match r.check_env_configured fs with
  | .error e => ⟨.error e, r, fs, []⟩
  | .ok _ => ⟨.ok (), { r with specs := addSpecPure r.specs spec }, fs, []⟩

/-- `PipRunner.generate_requirement_file`: recompute the content; when the
requirement file and lock file both exist, the lock file is not older, and
the on-disk content is byte-identical, mark installed and return without
writing; otherwise write the recomputed content. Opening a directory (for
reading or writing) raises, as in Python. -/
def PipRunner.generate_requirement_file (r : PipRunner) (fs : FS) : StepResult :=
  match r.check_env_configured fs with
  | .error e => ⟨.error e, r, fs, []⟩
  | .ok _ =>
    let p := r.env_path.getD ""
    let contents := generate_requirement_content r.specs
    let req := requirementFilePath p
    let lock := lockFilePath p
    let writeStep : StepResult :=
      if fs.isDirAt req then ⟨.error .isADirectoryError, r, fs, []⟩
      else ⟨.ok (), r, fs.write req contents, []⟩
    if fs.existsPath req && fs.existsPath lock then
      if fs.mtimeD req ≤ fs.mtimeD lock then
        if fs.isDirAt req then ⟨.error .isADirectoryError, r, fs, []⟩
        else if fs.readFile req = some contents then
          ⟨.ok (), { r with installed := true }, fs, []⟩
        else writeStep
      else writeStep
    else writeStep

/-- `PipRunner.install`. `freezeOutput` stands for the text the external
freeze invocation produces (modelled from the spec: the freeze output is
written verbatim to the lock file). A successful real-mode call invokes
pip install then pip freeze; a dry-run call invokes nothing. -/
def PipRunner.install (r : PipRunner) (fs : FS) (freezeOutput : String) : StepResult :=
  match r.check_env_configured fs with
  | .error e => ⟨.error e, r, fs, []⟩
  | .ok _ =>
    if r.installed then ⟨.ok (), r, fs, []⟩
    else
      let p := r.env_path.getD ""
      let req := requirementFilePath p
      if fs.existsPath req then
        if r.dry_run then ⟨.ok (), { r with installed := true }, fs, []⟩
        else
          let lock := lockFilePath p
          if fs.isDirAt lock then ⟨.error .isADirectoryError, r, fs, [.pipInstall req]⟩
          else
            ⟨.ok (), { r with installed := true }, fs.write lock freezeOutput,
              [.pipInstall req, .pipFreeze req]⟩
      else ⟨.error (.runner (.missingRequirementFile req)), r, fs, []⟩

/-- Modelled from the spec: `ramble.util.hashing.hash_string` is not under
`src/`; the spec describes it only as a deterministic, content-derived,
non-empty digest that is stable for identical content. It is modelled as
an injective tagging of the content, which has exactly those properties. -/
def hash_string (s : String) : String := "sha256:" ++ s

/-- Modelled from the spec: `ramble.util.hashing.hash_file` digests the
bytes of a file, so it agrees with `hash_string` on the file's content. -/
def hash_file (content : String) : String := hash_string content

/-- `PipRunner.inventory_hash`: in dry-run mode the digest of the computed
requirement content, otherwise the digest of the lock file's bytes. -/
def PipRunner.inventory_hash (r : PipRunner) (fs : FS) : Except Err String :=
  match r.check_env_configured fs with
  | .error e => .error e
  | .ok _ =>
    if r.dry_run then .ok (hash_string (generate_requirement_content r.specs))
    else
      let p := r.env_path.getD ""
      let lock := lockFilePath p
      if fs.existsPath lock then
        if fs.isDirAt lock then .error .isADirectoryError
        else .ok (hash_file ((fs.readFile lock).getD ""))
      else .error .fileNotFoundError

/-- Version characters accepted by the pattern `[\d.]+`. -/
def isVersionChar (c : Char) : Bool := c.isDigit || c == '.'

/-- Attempt to match the regex `pip (?P<version>[\d.]+) from` at the head
of the character list, returning the captured group. Because a space
cannot extend a `[\d.]+` run, the greedy match at a position succeeds
exactly when the maximal run works. -/
def matchPipVersionAt (cs : List Char) : Option (List Char) :=
  if cs.take 4 = "pip ".toList then
    let rest := cs.drop 4
    let run := rest.takeWhile isVersionChar
    let after := rest.dropWhile isVersionChar
    if run ≠ [] ∧ after.take 5 = " from".toList then some run else none
  else none

/-- `re.search` for the pattern above: try every start position, leftmost
match wins. -/
def searchPipVersion : List Char → Option (List Char)
  | [] => none
  | c :: cs =>
    match matchPipVersionAt (c :: cs) with
    | some run => some run
    | none => searchPipVersion cs

/-- `PipRunner.get_version`, as a function of the text the version query
printed. When the pattern is absent, `re.search` returns `None` and
`.group` raises `AttributeError`. -/
def PipRunner.get_version (toolOutput : String) : Except Err String :=
  match searchPipVersion toolOutput.data with
  | some run => .ok (String.mk run)
  | none => .error .attributeError

/-- The workspace phase cache consumed by the orchestrator. -/
structure Workspace where
  cache : List (String × String)
  dry_run : Bool
  deriving DecidableEq, Repr

/-- `workspace.check_cache`. -/
def Workspace.check_cache (ws : Workspace) (k : String × String) : Bool :=
  decide (k ∈ ws.cache)

/-- `workspace.add_to_cache`. -/
def Workspace.add_to_cache (ws : Workspace) (k : String × String) : Workspace :=
  { ws with cache := k :: ws.cache }

/-- Inputs the orchestrator obtains from its collaborators: the expanded
environment path (Python `None` and the empty string are both falsy and
are modelled as `""`), whether an environment is required, and the spec
list the software-environment collaborator renders (`none` when the
rendered environment is falsy). -/
structure OrchestratorConfig where
  env_path : String
  environmentRequired : Bool
  renderedSpecs : Option (List String)
  deriving DecidableEq, Repr

/-- Result of one orchestrator phase. -/
structure PhaseResult where
  result : Except Err Unit
  ws : Workspace
  runner : PipRunner
  fs : FS
  effects : List Effect
  deriving DecidableEq, Repr

/-- Add each rendered spec in order, stopping at the first raise (which
cannot occur after a successful `create_env`, but the control flow is kept
faithful). -/
def addSpecsAll (r : PipRunner) (fs : FS) : List String → PipRunner × Except Err Unit
  | [] => (r, .ok ())
  | s :: rest =>
    let st := r.add_spec fs s
    match st.result with
    | .error e => (st.runner, .error e)
    | .ok _ => addSpecsAll st.runner fs rest

/-- Body of `Pip._software_create_env` after the cache gate: create the
env, add the rendered specs, generate the requirement file, propagating
the first raise. -/
def software_create_env_body (cfg : OrchestratorConfig) (r : PipRunner)
    (fs : FS) : Except Err Unit × PipRunner × FS × List Effect :=
  let step1 := r.create_env fs cfg.env_path
  match step1.result with
  | .error e => (.error e, step1.runner, step1.fs, step1.effects)
  | .ok _ =>
    match cfg.renderedSpecs with
    | none => (.ok (), step1.runner, step1.fs, step1.effects)
    | some specs =>
      match addSpecsAll step1.runner step1.fs specs with
      | (r2, .error e) => (.error e, r2, step1.fs, step1.effects)
      | (r2, .ok _) =>
        let step2 := r2.generate_requirement_file step1.fs
        (step2.result, step2.runner, step2.fs, step1.effects ++ step2.effects)

/-- `Pip._software_create_env`: check the phase cache under the key
`("pip-env", env_path)`, register the key, then run the phase body. -/
def software_create_env (cfg : OrchestratorConfig) (ws : Workspace)
    (r : PipRunner) (fs : FS) : PhaseResult :=
  if cfg.env_path = "" then ⟨.error .applicationError, ws, r, fs, []⟩
  else if ws.check_cache ("pip-env", cfg.env_path) then ⟨.ok (), ws, r, fs, []⟩
  else
    let b := software_create_env_body cfg (r.set_dry_run ws.dry_run) fs
    ⟨b.1, ws.add_to_cache ("pip-env", cfg.env_path), b.2.1, b.2.2.1, b.2.2.2⟩

/-- Body of `Pip._software_install` after the cache gate: when an
environment is required, configure the runner and install. -/
def software_install_body (cfg : OrchestratorConfig) (r : PipRunner)
    (fs : FS) (freezeOutput : String) : Except Err Unit × PipRunner × FS × List Effect :=
  if cfg.environmentRequired then
    let st := (r.configure_env cfg.env_path).install fs freezeOutput
    (st.result, st.runner, st.fs, st.effects)
  else (.ok (), r, fs, [])

/-- `Pip._software_install`: check the phase cache under the key
`("pip-install", env_path)`, register the key, then run the phase body. -/
def software_install (cfg : OrchestratorConfig) (ws : Workspace)
    (r : PipRunner) (fs : FS) (freezeOutput : String) : PhaseResult :=
  if cfg.env_path = "" then ⟨.error .applicationError, ws, r, fs, []⟩
  else if ws.check_cache ("pip-install", cfg.env_path) then ⟨.ok (), ws, r, fs, []⟩
  else
    let b := software_install_body cfg (r.set_dry_run ws.dry_run) fs freezeOutput
    ⟨b.1, ws.add_to_cache ("pip-install", cfg.env_path), b.2.1, b.2.2.1, b.2.2.2⟩

/-! Order-theoretic facts about the Python string order used by `sorted`. -/

theorem strLtChars_irrefl : ∀ l : List Char, strLtChars l l = false
  | [] => rfl
  | a :: as => by simp [strLtChars, lt_irrefl, strLtChars_irrefl as]

theorem strLtChars_trans (x : List Char) : ∀ y z : List Char,
    strLtChars x y = true → strLtChars y z = true → strLtChars x z = true := by
  induction x with
  | nil =>
    intro y z h1 h2
    cases y with
    | nil => simp [strLtChars] at h1
    | cons b bs =>
      cases z with
      | nil => simp [strLtChars] at h2
      | cons c cs => simp [strLtChars]
  | cons a as ih =>
    intro y z h1 h2
    cases y with
    | nil => simp [strLtChars] at h1
    | cons b bs =>
      cases z with
      | nil => simp [strLtChars] at h2
      | cons c cs =>
        simp only [strLtChars] at h1 h2 ⊢
        by_cases hab : a < b
        · by_cases hbc : b < c
          · simp [lt_trans hab hbc]
          · by_cases hcb : c < b
            · simp [hbc, hcb] at h2
            · have hbceq : c = b := le_antisymm (not_lt.mp hbc) (not_lt.mp hcb)
              subst hbceq
              simp [hab]
        · by_cases hba : b < a
          · rw [if_neg hab, if_pos hba] at h1
            exact absurd h1 (by simp)
          · have habeq : a = b := le_antisymm (not_lt.mp hba) (not_lt.mp hab)
            subst habeq
            rw [if_neg (lt_irrefl a), if_neg (lt_irrefl a)] at h1
            by_cases hac : a < c
            · simp [hac]
            · by_cases hca : c < a
              · rw [if_neg hac, if_pos hca] at h2
                exact absurd h2 (by simp)
              · have haceq : a = c := le_antisymm (not_lt.mp hca) (not_lt.mp hac)
                subst haceq
                rw [if_neg (lt_irrefl a), if_neg (lt_irrefl a)] at h2 ⊢
                exact ih _ _ h1 h2

theorem strLtChars_eq_of_not (x : List Char) : ∀ y : List Char,
    strLtChars x y = false → strLtChars y x = false → x = y := by
  induction x with
  | nil =>
    intro y h1 _
    cases y with
    | nil => rfl
    | cons b bs => simp [strLtChars] at h1
  | cons a as ih =>
    intro y h1 h2
    cases y with
    | nil => simp [strLtChars] at h2
    | cons b bs =>
      simp only [strLtChars] at h1 h2
      by_cases hab : a < b
      · simp [hab] at h1
      · by_cases hba : b < a
        · simp [hba] at h2
        · have habeq : a = b := le_antisymm (not_lt.mp hba) (not_lt.mp hab)
          subst habeq
          have htail : as = bs :=
            ih bs (by simpa [lt_irrefl] using h1) (by simpa [lt_irrefl] using h2)
          rw [htail]

instance : IsTrans String specLe := by
  constructor
  intro a b c hab hbc
  simp only [specLe, pyStrLe, pyStrLt, Bool.or_eq_true, beq_iff_eq] at hab hbc ⊢
  rcases hab with hab | hab
  · rcases hbc with hbc | hbc
    · exact Or.inl (strLtChars_trans _ _ _ hab hbc)
    · subst hbc; exact Or.inl hab
  · subst hab; exact hbc

instance : IsTotal String specLe := by
  constructor
  intro a b
  simp only [specLe, pyStrLe, pyStrLt, Bool.or_eq_true, beq_iff_eq]
  by_cases hab : strLtChars a.data b.data = true
  · exact Or.inl (Or.inl hab)
  · by_cases hba : strLtChars b.data a.data = true
    · exact Or.inr (Or.inl hba)
    · have : a.data = b.data :=
        strLtChars_eq_of_not _ _ (Bool.not_eq_true _ ▸ hab) (Bool.not_eq_true _ ▸ hba)
      exact Or.inl (Or.inr (String.ext this))

instance : IsAntisymm String specLe := by
  constructor
  intro a b hab hba
  simp only [specLe, pyStrLe, pyStrLt, Bool.or_eq_true, beq_iff_eq] at hab hba
  rcases hab with hab | hab
  · rcases hba with hba | hba
    · have := strLtChars_trans _ _ _ hab hba
      rw [strLtChars_irrefl] at this
      exact absurd this (by simp)
    · exact hba.symm
  · exact hab

/-! Facts about deduplicating spec addition. -/

theorem addSpecPure_nodup (l : List String) (s : String) (h : l.Nodup) :
    (addSpecPure l s).Nodup := by
  unfold addSpecPure
  split
  · exact h
  · next hmem => simp [List.nodup_append, h, hmem]

theorem foldl_addSpecPure_nodup (l : List String) :
    ∀ acc : List String, acc.Nodup → (l.foldl addSpecPure acc).Nodup := by
  induction l with
  | nil => intro acc h; exact h
  | cons s rest ih => intro acc h; exact ih _ (addSpecPure_nodup acc s h)

theorem specsAfter_nodup (l : List String) : (specsAfter l).Nodup :=
  foldl_addSpecPure_nodup l [] List.nodup_nil

theorem insertionSort_specLe_eq (l1 l2 : List String)
    (h1 : l1.Nodup) (h2 : l2.Nodup) (h : ∀ x, x ∈ l1 ↔ x ∈ l2) :
    l1.insertionSort specLe = l2.insertionSort specLe := by
  have hperm : l1.Perm l2 := (List.perm_ext_iff_of_nodup h1 h2).mpr h
  exact List.eq_of_perm_of_sorted
    (((List.perm_insertionSort _ l1).trans hperm).trans
      (List.perm_insertionSort _ l2).symm)
    (List.sorted_insertionSort _ l1) (List.sorted_insertionSort _ l2)

/-! Facts about the filesystem model. -/

theorem FS.write_ne (fs : FS) (p c : String) : fs.write p c ≠ fs := by
  intro h
  have hc := congrArg FS.clock h
  simp [FS.write, FS.setEntry] at hc

theorem FS.nodeAt_setEntry_self (fs : FS) (p : String) (n : Node) :
    (fs.setEntry p n).nodeAt p = some n := by
  simp [FS.nodeAt, FS.setEntry, List.find?]

theorem FS.nodeAt_setEntry_ne (fs : FS) (p q : String) (n : Node) (h : q ≠ p) :
    (fs.setEntry p n).nodeAt q = fs.nodeAt q := by
  unfold FS.setEntry FS.nodeAt
  rw [List.find?_cons_of_neg]
  simp [Ne.symm h]

theorem FS.readFile_write_self (fs : FS) (p c : String) :
    (fs.write p c).readFile p = some c := by
  simp [FS.readFile, FS.write, FS.nodeAt_setEntry_self]

theorem FS.existsPath_write_ne (fs : FS) (p q c : String) (h : q ≠ p) :
    (fs.write p c).existsPath q = fs.existsPath q := by
  simp [FS.existsPath, FS.write, FS.nodeAt_setEntry_ne fs p q _ h]

/-! Distinctness of the paths the runner derives from one environment
path, via their lengths. -/

theorem pathJoin_data (a b : String) : (pathJoin a b).data = a.data ++ '/' :: b.data := by
  have hs : ("/" : String).data = ['/'] := rfl
  simp [pathJoin, String.data_append, hs]

theorem pathJoin_data_length (a b : String) :
    (pathJoin a b).data.length = a.data.length + 1 + b.data.length := by
  simp [pathJoin_data]
  omega

theorem ne_of_data_length_ne (x y : String) (h : x.data.length ≠ y.data.length) :
    x ≠ y :=
  fun hEq => h (congrArg (fun s => s.data.length) hEq)

theorem venvPath_data_length (p : String) :
    (venvPath p).data.length = p.data.length + 6 := by
  have h5 : (".venv" : String).data.length = 5 := rfl
  rw [venvPath, pathJoin_data_length, h5]

theorem activateScriptPath_data_length (p : String) :
    (activateScriptPath p).data.length = p.data.length + 19 := by
  have h3 : ("bin" : String).data.length = 3 := rfl
  have h8 : ("activate" : String).data.length = 8 := rfl
  rw [activateScriptPath, pathJoin_data_length, pathJoin_data_length,
    venvPath_data_length, h3, h8]

theorem requirementFilePath_data_length (p : String) :
    (requirementFilePath p).data.length = p.data.length + 17 := by
  have h16 : ("requirements.txt" : String).data.length = 16 := rfl
  rw [requirementFilePath, pathJoin_data_length, h16]

theorem lockFilePath_data_length (p : String) :
    (lockFilePath p).data.length = p.data.length + 18 := by
  have h17 : ("requirements.lock" : String).data.length = 17 := rfl
  rw [lockFilePath, pathJoin_data_length, h17]

theorem venvPath_ne_env (p : String) : venvPath p ≠ p := by
  apply ne_of_data_length_ne
  rw [venvPath_data_length]
  omega

theorem activateScriptPath_ne_env (p : String) : activateScriptPath p ≠ p := by
  apply ne_of_data_length_ne
  rw [activateScriptPath_data_length]
  omega

theorem activateScriptPath_ne_venv (p : String) :
    activateScriptPath p ≠ venvPath p := by
  apply ne_of_data_length_ne
  rw [activateScriptPath_data_length, venvPath_data_length]
  omega

theorem activateScriptPath_ne_lock (p : String) :
    activateScriptPath p ≠ lockFilePath p := by
  apply ne_of_data_length_ne
  rw [activateScriptPath_data_length, lockFilePath_data_length]
  omega

theorem activateScriptPath_ne_req (p : String) :
    activateScriptPath p ≠ requirementFilePath p := by
  apply ne_of_data_length_ne
  rw [activateScriptPath_data_length, requirementFilePath_data_length]
  omega

theorem insertionSort_specLe_eq_of_mem (l1 l2 : List String)
    (h1 : l1.Nodup) (h2 : l2.Nodup) (h : ∀ x, x ∈ l1 ↔ x ∈ l2) :
    l1.insertionSort specLe = l2.insertionSort specLe := by
  have hperm : l1.Perm l2 := (List.perm_ext_iff_of_nodup h1 h2).mpr h
  exact List.eq_of_perm_of_sorted
    (((List.perm_insertionSort _ l1).trans hperm).trans
      (List.perm_insertionSort _ l2).symm)
    (List.sorted_insertionSort _ l1) (List.sorted_insertionSort _ l2)

/-- C3: two sequences of `add_spec` calls whose resulting spec sets have
identical elements (whatever the order of addition, duplicates included)
give byte-identical requirement content, namely the lexicographically
sorted specs joined by newlines with a trailing newline; the spec set
from adding "numpy==1.2" and "requests" (with a duplicate) serializes to
"numpy==1.2\nrequests\n", and a fresh configured runner writes exactly
that computed content to the requirement file. -/
theorem c3_requirement_content_order_independent (l1 l2 : List String)
    (h : ∀ x, x ∈ specsAfter l1 ↔ x ∈ specsAfter l2) :
    generate_requirement_content (specsAfter l1)
      = generate_requirement_content (specsAfter l2)
    ∧ generate_requirement_content (specsAfter ["requests", "numpy==1.2", "requests"])
      = "numpy==1.2\nrequests\n"
    ∧ (PipRunner.generate_requirement_file ⟨some "/e", true, specsAfter l1, false⟩
        ⟨[], 0⟩).fs.readFile (requirementFilePath "/e")
      = some (generate_requirement_content (specsAfter l1)) := by
  refine ⟨?_, by decide, ?_⟩
  · unfold generate_requirement_content
    rw [insertionSort_specLe_eq_of_mem (specsAfter l1) (specsAfter l2)
      (specsAfter_nodup l1) (specsAfter_nodup l2) h]
  · unfold PipRunner.generate_requirement_file
    simp only [PipRunner.check_env_configured]
    simp [FS.existsPath, FS.isDirAt, FS.nodeAt, FS.readFile_write_self]

/-- Witness for C3 at the sequences ["a", "b"] and ["b", "a", "a"]. -/
theorem c3_witness :
    generate_requirement_content (specsAfter ["a", "b"])
      = generate_requirement_content (specsAfter ["b", "a", "a"]) := by
  have h := c3_requirement_content_order_independent ["a", "b"] ["b", "a", "a"]
    (by intro x; simp [specsAfter, addSpecPure]; tauto)
  exact h.1

/-- C1: `generate_requirement_file` performs no filesystem write and marks
the runner installed exactly when the requirement file and the lock file
both exist, the lock file's mtime is at least the requirement file's, and
the on-disk requirement content is byte-identical to the recomputed
serialization; in every other case it overwrites the requirement file and
leaves the runner state unchanged. Stated for a call that passes the
configuration check, with no directory squatting on the requirement path. -/
theorem c1_generate_requirement_file_skip_iff (r : PipRunner) (fs : FS) (p : String)
    (hp : r.env_path = some p)
    (hok : r.check_env_configured fs = .ok ())
    (hreq : fs.isDirAt (requirementFilePath p) = false) :
    (((r.generate_requirement_file fs).fs = fs
        ∧ (r.generate_requirement_file fs).runner = { r with installed := true }
        ∧ (r.generate_requirement_file fs).result = .ok ())
      ↔ (fs.existsPath (requirementFilePath p) = true
          ∧ fs.existsPath (lockFilePath p) = true
          ∧ fs.mtimeD (requirementFilePath p) ≤ fs.mtimeD (lockFilePath p)
          ∧ fs.readFile (requirementFilePath p)
              = some (generate_requirement_content r.specs)))
    ∧ (¬ (fs.existsPath (requirementFilePath p) = true
          ∧ fs.existsPath (lockFilePath p) = true
          ∧ fs.mtimeD (requirementFilePath p) ≤ fs.mtimeD (lockFilePath p)
          ∧ fs.readFile (requirementFilePath p)
              = some (generate_requirement_content r.specs)) →
        ((r.generate_requirement_file fs).fs
            = fs.write (requirementFilePath p) (generate_requirement_content r.specs)
          ∧ (r.generate_requirement_file fs).runner = r
          ∧ (r.generate_requirement_file fs).result = .ok ())) := by
  have hgetD : r.env_path.getD "" = p := by rw [hp]; rfl
  simp only [PipRunner.generate_requirement_file, hok, hgetD]
  rw [hreq]
  simp only [Bool.false_eq_true, if_false]
  by_cases hA : (fs.existsPath (requirementFilePath p)
      && fs.existsPath (lockFilePath p)) = true
  · rw [if_pos hA]
    rw [Bool.and_eq_true] at hA
    by_cases hB : fs.mtimeD (requirementFilePath p) ≤ fs.mtimeD (lockFilePath p)
    · rw [if_pos hB]
      by_cases hD : fs.readFile (requirementFilePath p)
          = some (generate_requirement_content r.specs)
      · rw [if_pos hD]
        have hcond : fs.existsPath (requirementFilePath p) = true
            ∧ fs.existsPath (lockFilePath p) = true
            ∧ fs.mtimeD (requirementFilePath p) ≤ fs.mtimeD (lockFilePath p)
            ∧ fs.readFile (requirementFilePath p)
                = some (generate_requirement_content r.specs) :=
          ⟨hA.1, hA.2, hB, hD⟩
        exact ⟨⟨fun _ => hcond, fun _ => ⟨rfl, rfl, rfl⟩⟩,
          fun hn => absurd hcond hn⟩
      · rw [if_neg hD]
        refine ⟨⟨?_, ?_⟩, fun _ => ⟨rfl, rfl, rfl⟩⟩
        · rintro ⟨hfs, -, -⟩
          exact absurd hfs (FS.write_ne fs _ _)
        · rintro ⟨-, -, -, hd2⟩
          exact absurd hd2 hD
    · rw [if_neg hB]
      refine ⟨⟨?_, ?_⟩, fun _ => ⟨rfl, rfl, rfl⟩⟩
      · rintro ⟨hfs, -, -⟩
        exact absurd hfs (FS.write_ne fs _ _)
      · rintro ⟨-, -, hb2, -⟩
        exact absurd hb2 hB
  · rw [if_neg hA]
    refine ⟨⟨?_, ?_⟩, fun _ => ⟨rfl, rfl, rfl⟩⟩
    · rintro ⟨hfs, -, -⟩
      exact absurd hfs (FS.write_ne fs _ _)
    · rintro ⟨he1, he2, -, -⟩
      exact absurd (by rw [Bool.and_eq_true]; exact ⟨he1, he2⟩) hA

/-- Witness for C1: a dry-run runner over a filesystem holding an
up-to-date requirement/lock pair skips the write and marks installed. -/
theorem c1_witness :
    ((PipRunner.generate_requirement_file ⟨some "/e", true, ["requests"], false⟩
        ⟨[(requirementFilePath "/e", .file "requests\n" 0),
          (lockFilePath "/e", .file "" 1)], 2⟩).fs
      = ⟨[(requirementFilePath "/e", .file "requests\n" 0),
          (lockFilePath "/e", .file "" 1)], 2⟩)
    ∧ (PipRunner.generate_requirement_file ⟨some "/e", true, ["requests"], false⟩
        ⟨[(requirementFilePath "/e", .file "requests\n" 0),
          (lockFilePath "/e", .file "" 1)], 2⟩).runner.installed = true := by
  have h := c1_generate_requirement_file_skip_iff
    ⟨some "/e", true, ["requests"], false⟩
    ⟨[(requirementFilePath "/e", .file "requests\n" 0),
      (lockFilePath "/e", .file "" 1)], 2⟩ "/e" rfl (by decide) (by decide)
  have hc := h.1.mpr ⟨by decide, by decide, by decide, by decide⟩
  exact ⟨hc.1, by rw [hc.2.1]⟩

theorem generate_requirement_file_effects (r : PipRunner) (fs : FS) :
    (r.generate_requirement_file fs).effects = [] := by
  rcases hchk : r.check_env_configured fs with e | u
  · simp [PipRunner.generate_requirement_file, hchk]
  · simp only [PipRunner.generate_requirement_file, hchk]
    split
    · split
      · split
        · rfl
        · split
          · rfl
          · rfl
      · split <;> rfl
    · split <;> rfl

theorem create_env_dry_run_effects (r : PipRunner) (fs : FS) (p : String)
    (hdry : r.dry_run = true) :
    (r.create_env fs p).effects = [] := by
  unfold PipRunner.create_env
  by_cases h1 : (fs.existsPath p && !fs.isDirAt p) = true
  · rw [if_pos h1]
  · rw [if_neg h1, hdry]
    simp

theorem install_dry_run_frame (r : PipRunner) (fs : FS) (fo : String)
    (hdry : r.dry_run = true) :
    (r.install fs fo).effects = [] ∧ (r.install fs fo).fs = fs := by
  rcases hchk : r.check_env_configured fs with e | u
  · simp [PipRunner.install, hchk]
  · simp only [PipRunner.install, hchk]
    by_cases hi : r.installed = true
    · rw [if_pos hi]
      exact ⟨rfl, rfl⟩
    · rw [if_neg hi]
      by_cases hex : fs.existsPath (requirementFilePath (r.env_path.getD "")) = true
      · rw [if_pos hex, hdry]
        simp
      · rw [if_neg hex]
        exact ⟨rfl, rfl⟩

/-- C2 counterexample: in dry-run mode the code still mutates the
filesystem; a configured dry-run runner writing its requirement file over
an empty filesystem changes the filesystem, and a dry-run `create_env` on
a missing path creates the directory. -/
theorem c2_counterexample :
    (PipRunner.generate_requirement_file ⟨some "/e", true, ["requests"], false⟩
        ⟨[], 0⟩).fs ≠ ⟨[], 0⟩
    ∧ (PipRunner.create_env ⟨none, true, [], false⟩ ⟨[], 0⟩ "/e").fs ≠ ⟨[], 0⟩ := by
  decide

/-- C2 (amended): in dry-run mode no external process is invoked by
`create_env`, `generate_requirement_file`, or `install`, and `install`
leaves the filesystem untouched; however `create_env` may still create
directories and `generate_requirement_file` may still write the
requirement file. -/
theorem c2_dry_run_no_process (r : PipRunner) (fs : FS) (p fo : String)
    (hdry : r.dry_run = true) :
    (r.create_env fs p).effects = []
    ∧ (r.generate_requirement_file fs).effects = []
    ∧ (r.install fs fo).effects = []
    ∧ (r.install fs fo).fs = fs :=
  ⟨create_env_dry_run_effects r fs p hdry,
   generate_requirement_file_effects r fs,
   (install_dry_run_frame r fs fo hdry).1,
   (install_dry_run_frame r fs fo hdry).2⟩

/-- Witness for C2 (amended) at a concrete dry-run install. -/
theorem c2_witness :
    (PipRunner.install ⟨some "/e", true, ["x"], false⟩
        ⟨[(requirementFilePath "/e", .file "x\n" 0)], 1⟩ "frz").fs
      = ⟨[(requirementFilePath "/e", .file "x\n" 0)], 1⟩
    ∧ (PipRunner.install ⟨some "/e", true, ["x"], false⟩
        ⟨[(requirementFilePath "/e", .file "x\n" 0)], 1⟩ "frz").effects = [] := by
  have h := c2_dry_run_no_process ⟨some "/e", true, ["x"], false⟩
    ⟨[(requirementFilePath "/e", .file "x\n" 0)], 1⟩ "/q" "frz" rfl
  exact ⟨h.2.2.2, h.2.2.1⟩

theorem check_env_configured_mark_installed (r : PipRunner) (fs : FS) (b : Bool) :
    ({ r with installed := b } : PipRunner).check_env_configured fs
      = r.check_env_configured fs := rfl

theorem check_env_configured_write_lock (r : PipRunner) (fs : FS) (p c : String)
    (hp : r.env_path = some p) :
    r.check_env_configured (fs.write (lockFilePath p) c)
      = r.check_env_configured fs := by
  simp only [PipRunner.check_env_configured, hp]
  rw [FS.existsPath_write_ne fs (lockFilePath p) (activateScriptPath p) c
    (activateScriptPath_ne_lock p)]

/-- C4: on a configured runner not yet marked installed, a successful
`install` marks the runner installed, performs the pip install invocation
exactly once (and none in dry-run mode), and a second `install` on the
resulting state is a no-op returning success with the runner, filesystem
and effect trace unchanged. -/
theorem c4_install_idempotent (r : PipRunner) (fs : FS) (p fo fo2 : String)
    (hp : r.env_path = some p)
    (hfresh : r.installed = false)
    (h1 : (r.install fs fo).result = .ok ()) :
    (r.install fs fo).runner.installed = true
    ∧ (r.dry_run = false →
        (r.install fs fo).effects
          = [.pipInstall (requirementFilePath p), .pipFreeze (requirementFilePath p)])
    ∧ (r.dry_run = true → (r.install fs fo).effects = [])
    ∧ (r.install fs fo).runner.install (r.install fs fo).fs fo2
        = ⟨.ok (), (r.install fs fo).runner, (r.install fs fo).fs, []⟩ := by
  have hgetD : r.env_path.getD "" = p := by rw [hp]; rfl
  rcases hchk : r.check_env_configured fs with e | u
  · simp [PipRunner.install, hchk] at h1
  · simp only [PipRunner.install, hchk, hgetD, hfresh, Bool.false_eq_true, if_false]
      at h1 ⊢
    by_cases hex : fs.existsPath (requirementFilePath p) = true
    · rw [if_pos hex] at h1 ⊢
      by_cases hdry : r.dry_run = true
      · rw [if_pos hdry] at h1 ⊢
        have hchk2 : PipRunner.check_env_configured { r with installed := true } fs
            = .ok () := by
          rw [check_env_configured_mark_installed, hchk]
        refine ⟨by simp, fun hdf => absurd (hdry.symm.trans hdf) (by simp),
          fun _ => by simp, ?_⟩
        simp [PipRunner.install, hchk2]
      · rw [if_neg hdry] at h1 ⊢
        by_cases hlock : fs.isDirAt (lockFilePath p) = true
        · rw [if_pos hlock] at h1
          simp at h1
        · rw [if_neg hlock] at h1 ⊢
          have hchk2 : PipRunner.check_env_configured { r with installed := true }
              (fs.write (lockFilePath p) fo) = .ok () := by
            rw [check_env_configured_mark_installed,
              check_env_configured_write_lock r fs p fo hp, hchk]
          refine ⟨by simp, fun _ => by simp, fun hdt => absurd hdt hdry, ?_⟩
          simp [PipRunner.install, hchk2]
    · rw [if_neg hex] at h1
      simp at h1

/-- Witness for C4 at a concrete real-mode runner with a bootstrapped
venv and an existing requirement file. -/
theorem c4_witness :
    (PipRunner.install ⟨some "/e", false, ["x"], false⟩
        ⟨[(activateScriptPath "/e", .file "" 0),
          (requirementFilePath "/e", .file "x\n" 0)], 1⟩ "frz").runner.installed = true
    ∧ (PipRunner.install ⟨some "/e", false, ["x"], false⟩
        ⟨[(activateScriptPath "/e", .file "" 0),
          (requirementFilePath "/e", .file "x\n" 0)], 1⟩ "frz").runner.install
        (PipRunner.install ⟨some "/e", false, ["x"], false⟩
          ⟨[(activateScriptPath "/e", .file "" 0),
            (requirementFilePath "/e", .file "x\n" 0)], 1⟩ "frz").fs "frz2"
      = ⟨.ok (),
          (PipRunner.install ⟨some "/e", false, ["x"], false⟩
            ⟨[(activateScriptPath "/e", .file "" 0),
              (requirementFilePath "/e", .file "x\n" 0)], 1⟩ "frz").runner,
          (PipRunner.install ⟨some "/e", false, ["x"], false⟩
            ⟨[(activateScriptPath "/e", .file "" 0),
              (requirementFilePath "/e", .file "x\n" 0)], 1⟩ "frz").fs, []⟩ := by
  have h := c4_install_idempotent ⟨some "/e", false, ["x"], false⟩
    ⟨[(activateScriptPath "/e", .file "" 0),
      (requirementFilePath "/e", .file "x\n" 0)], 1⟩ "/e" "frz" "frz2"
    rfl rfl (by decide)
  exact ⟨h.1, h.2.2.2⟩

/-- C5 counterexample: after a prior install (runner marked installed),
changing the spec set so the recomputed content differs from the on-disk
requirement file makes `generate_requirement_file` rewrite the file, but
the installed flag is not cleared — it stays `true`, contradicting the
claim that the flag is cleared. -/
theorem c5_counterexample :
    (PipRunner.generate_requirement_file ⟨some "/e", true, ["a"], true⟩
        ⟨[(requirementFilePath "/e", .file "b\n" 0),
          (lockFilePath "/e", .file "" 1)], 2⟩).fs.readFile (requirementFilePath "/e")
      = some "a\n"
    ∧ ¬ ((PipRunner.generate_requirement_file ⟨some "/e", true, ["a"], true⟩
        ⟨[(requirementFilePath "/e", .file "b\n" 0),
          (lockFilePath "/e", .file "" 1)], 2⟩).runner.installed = false) := by
  decide

/-- C5 (amended): when the recomputed content differs from the on-disk
requirement file, `generate_requirement_file` rewrites the requirement
file and leaves the runner — in particular the installed flag — exactly
as it was; the flag is never cleared, so a later `install` re-runs only
if the runner was not already marked installed. -/
theorem c5_rewrite_keeps_flag (r : PipRunner) (fs : FS) (p : String)
    (hp : r.env_path = some p)
    (hok : r.check_env_configured fs = .ok ())
    (hreq : fs.isDirAt (requirementFilePath p) = false)
    (hdiff : fs.readFile (requirementFilePath p)
      ≠ some (generate_requirement_content r.specs)) :
    (r.generate_requirement_file fs).fs
      = fs.write (requirementFilePath p) (generate_requirement_content r.specs)
    ∧ (r.generate_requirement_file fs).runner = r := by
  have hgetD : r.env_path.getD "" = p := by rw [hp]; rfl
  simp only [PipRunner.generate_requirement_file, hok, hgetD]
  rw [hreq]
  simp only [Bool.false_eq_true, if_false]
  by_cases hA : (fs.existsPath (requirementFilePath p)
      && fs.existsPath (lockFilePath p)) = true
  · rw [if_pos hA]
    by_cases hB : fs.mtimeD (requirementFilePath p) ≤ fs.mtimeD (lockFilePath p)
    · rw [if_pos hB, if_neg hdiff]
      exact ⟨rfl, rfl⟩
    · rw [if_neg hB]
      exact ⟨rfl, rfl⟩
  · rw [if_neg hA]
    exact ⟨rfl, rfl⟩

/-- Witness for C5 (amended): a runner already marked installed keeps the
flag through the rewrite. -/
theorem c5_witness :
    (PipRunner.generate_requirement_file ⟨some "/e", true, ["a"], true⟩
        ⟨[(requirementFilePath "/e", .file "b\n" 0),
          (lockFilePath "/e", .file "" 1)], 2⟩).runner
      = ⟨some "/e", true, ["a"], true⟩ := by
  have h := c5_rewrite_keeps_flag ⟨some "/e", true, ["a"], true⟩
    ⟨[(requirementFilePath "/e", .file "b\n" 0),
      (lockFilePath "/e", .file "" 1)], 2⟩ "/e" rfl (by decide) (by decide) (by decide)
  exact h.2

/-- C6: `inventory_hash` on a configured runner returns, in dry-run mode,
the digest of the computed (not necessarily written) requirement content —
a value independent of the filesystem, determined by the spec set alone,
and non-empty — and, in real mode, the digest of the lock file's bytes. -/
theorem c6_inventory_hash_modes (r : PipRunner) (fs : FS) (p : String)
    (hp : r.env_path = some p)
    (hok : r.check_env_configured fs = .ok ()) :
    (r.dry_run = true →
      (r.inventory_hash fs
          = .ok (hash_string (generate_requirement_content r.specs))
        ∧ (∀ fs2 : FS, r.inventory_hash fs2 = r.inventory_hash fs)
        ∧ hash_string (generate_requirement_content r.specs) ≠ ""))
    ∧ (r.dry_run = false → ∀ c m, fs.nodeAt (lockFilePath p) = some (.file c m) →
        r.inventory_hash fs = .ok (hash_file c)) := by
  constructor
  · intro hdry
    have hpne : ¬ p = "" := by
      intro hpe
      simp [PipRunner.check_env_configured, hp, hpe] at hok
    have hchkAll : ∀ fs2 : FS, r.check_env_configured fs2 = .ok () := by
      intro fs2
      simp [PipRunner.check_env_configured, hp, hpne, hdry]
    refine ⟨by simp [PipRunner.inventory_hash, hchkAll fs, hdry], ?_, ?_⟩
    · intro fs2
      simp [PipRunner.inventory_hash, hchkAll fs2, hchkAll fs, hdry]
    · apply ne_of_data_length_ne
      unfold hash_string
      rw [String.data_append, List.length_append]
      have h7 : ("sha256:" : String).data.length = 7 := rfl
      have h0 : ("" : String).data.length = 0 := rfl
      rw [h7, h0]
      omega
  · intro hreal c m hlock
    have hread : fs.readFile (lockFilePath p) = some c := by simp [FS.readFile, hlock]
    have hex : fs.existsPath (lockFilePath p) = true := by simp [FS.existsPath, hlock]
    have hdir : fs.isDirAt (lockFilePath p) = false := by simp [FS.isDirAt, hlock]
    have hgetD : r.env_path.getD "" = p := by rw [hp]; rfl
    simp [PipRunner.inventory_hash, hok, hreal, hgetD, hex, hdir, hread]

/-- Witness for C6: a concrete dry-run digest and a concrete real-mode
digest of the lock file's bytes. -/
theorem c6_witness :
    PipRunner.inventory_hash ⟨some "/e", true, ["requests"], false⟩ ⟨[], 0⟩
      = .ok (hash_string (generate_requirement_content ["requests"]))
    ∧ PipRunner.inventory_hash ⟨some "/e", false, [], false⟩
        ⟨[(activateScriptPath "/e", .file "" 0),
          (lockFilePath "/e", .file "pinned\n" 0)], 1⟩
      = .ok (hash_file "pinned\n") := by
  have h1 := c6_inventory_hash_modes ⟨some "/e", true, ["requests"], false⟩ ⟨[], 0⟩
    "/e" rfl (by decide)
  have h2 := c6_inventory_hash_modes ⟨some "/e", false, [], false⟩
    ⟨[(activateScriptPath "/e", .file "" 0),
      (lockFilePath "/e", .file "pinned\n" 0)], 1⟩ "/e" rfl (by decide)
  exact ⟨(h1.1 rfl).1, h2.2 rfl "pinned\n" 0 (by decide)⟩

/-- C9: on version-query output that lacks the pattern
`pip ([0-9.]+) from`, `get_version` escapes with Python's
`AttributeError` (from `.group` on `None`) rather than an error of the
program's taxonomy; on well-formed output the version token is
extracted. -/
theorem c9_get_version_attribute_error :
    PipRunner.get_version "pip version unknown" = .error .attributeError
    ∧ PipRunner.get_version "pip 23.1.2 from /usr/lib/python3 (python 3.10)"
      = .ok "23.1.2" := by
  decide

/-- C10: `add_spec`, `generate_requirement_file`, `install` and
`inventory_hash` all run the configuration check: it fails with a
`RunnerError` when no environment path is configured, in real mode also
when the venv activate script is missing, while in dry-run mode only the
path check applies; every error of the check is returned unchanged by
each of the four operations. -/
theorem c10_check_env_configured_gating (r : PipRunner) (fs : FS)
    (p s fo : String) :
    ((r.env_path = none ∨ r.env_path = some "") →
      r.check_env_configured fs = .error (.runner .envPathNotConfigured))
    ∧ (r.env_path = some p → p ≠ "" → r.dry_run = false →
        fs.existsPath (activateScriptPath p) = false →
        r.check_env_configured fs = .error (.runner .venvNotConfigured))
    ∧ (r.env_path = some p → p ≠ "" → r.dry_run = true →
        r.check_env_configured fs = .ok ())
    ∧ (∀ e : Err, r.check_env_configured fs = .error e →
        ((r.add_spec fs s).result = .error e
          ∧ (r.generate_requirement_file fs).result = .error e
          ∧ (r.install fs fo).result = .error e
          ∧ r.inventory_hash fs = .error e)) := by
  refine ⟨?_, ?_, ?_, ?_⟩
  · rintro (hn | hn) <;> simp [PipRunner.check_env_configured, hn]
  · intro hp hpne hdry hact
    simp [PipRunner.check_env_configured, hp, hpne, hdry, hact]
  · intro hp hpne hdry
    simp [PipRunner.check_env_configured, hp, hpne, hdry]
  · intro e he
    exact ⟨by simp [PipRunner.add_spec, he],
      by simp [PipRunner.generate_requirement_file, he],
      by simp [PipRunner.install, he],
      by simp [PipRunner.inventory_hash, he]⟩

/-- Witness for C10 at concrete runners: unconfigured, configured real
mode without an activate script, and configured dry-run. -/
theorem c10_witness :
    PipRunner.check_env_configured ⟨none, false, [], false⟩ ⟨[], 0⟩
      = .error (.runner .envPathNotConfigured)
    ∧ PipRunner.check_env_configured ⟨some "/e", false, [], false⟩ ⟨[], 0⟩
      = .error (.runner .venvNotConfigured)
    ∧ PipRunner.check_env_configured ⟨some "/e", true, [], false⟩ ⟨[], 0⟩ = .ok ()
    ∧ (PipRunner.add_spec ⟨none, false, [], false⟩ ⟨[], 0⟩ "x").result
      = .error (.runner .envPathNotConfigured) := by
  have h1 := c10_check_env_configured_gating ⟨none, false, [], false⟩ ⟨[], 0⟩ "/e" "x" "f"
  have h2 := c10_check_env_configured_gating ⟨some "/e", false, [], false⟩ ⟨[], 0⟩
    "/e" "x" "f"
  have h3 := c10_check_env_configured_gating ⟨some "/e", true, [], false⟩ ⟨[], 0⟩
    "/e" "x" "f"
  exact ⟨h1.1 (Or.inl rfl), h2.2.1 rfl (by decide) rfl (by decide),
    h3.2.2.1 rfl (by decide) rfl, (h1.2.2.2 _ (h1.1 (Or.inl rfl))).1⟩

theorem software_create_env_skip (cfg : OrchestratorConfig) (ws : Workspace)
    (r : PipRunner) (fs : FS) (hpath : cfg.env_path ≠ "")
    (hmem : ("pip-env", cfg.env_path) ∈ ws.cache) :
    software_create_env cfg ws r fs = ⟨.ok (), ws, r, fs, []⟩ := by
  unfold software_create_env
  rw [if_neg hpath, if_pos (by simpa [Workspace.check_cache] using hmem)]

theorem software_install_skip (cfg : OrchestratorConfig) (ws : Workspace)
    (r : PipRunner) (fs : FS) (fo : String) (hpath : cfg.env_path ≠ "")
    (hmem : ("pip-install", cfg.env_path) ∈ ws.cache) :
    software_install cfg ws r fs fo = ⟨.ok (), ws, r, fs, []⟩ := by
  unfold software_install
  rw [if_neg hpath, if_pos (by simpa [Workspace.check_cache] using hmem)]

theorem software_create_env_registered (cfg : OrchestratorConfig) (ws : Workspace)
    (r : PipRunner) (fs : FS) (hpath : cfg.env_path ≠ "") :
    ("pip-env", cfg.env_path) ∈ (software_create_env cfg ws r fs).ws.cache := by
  unfold software_create_env
  rw [if_neg hpath]
  by_cases hc : ws.check_cache ("pip-env", cfg.env_path) = true
  · rw [if_pos hc]
    have hm : ("pip-env", cfg.env_path) ∈ ws.cache := by
      simpa [Workspace.check_cache] using hc
    simpa using hm
  · rw [if_neg hc]
    simp [Workspace.add_to_cache]

theorem software_install_registered (cfg : OrchestratorConfig) (ws : Workspace)
    (r : PipRunner) (fs : FS) (fo : String) (hpath : cfg.env_path ≠ "") :
    ("pip-install", cfg.env_path) ∈ (software_install cfg ws r fs fo).ws.cache := by
  unfold software_install
  rw [if_neg hpath]
  by_cases hc : ws.check_cache ("pip-install", cfg.env_path) = true
  · rw [if_pos hc]
    have hm : ("pip-install", cfg.env_path) ∈ ws.cache := by
      simpa [Workspace.check_cache] using hc
    simpa using hm
  · rw [if_neg hc]
    simp [Workspace.add_to_cache]

/-- C7: for each orchestrator phase the cache key (phase label,
environment path) is in the cache after the call whatever the body's
outcome (it is registered before the body runs); a key already present
makes the phase return immediately with the workspace, runner and
filesystem untouched and no effects; and re-running a phase right after
it ran is such a skip, so one key never has its body executed twice
within a run. -/
theorem c7_phase_cache_at_most_once (cfg : OrchestratorConfig) (ws : Workspace)
    (r : PipRunner) (fs : FS) (fo : String) (hpath : cfg.env_path ≠ "") :
    (("pip-env", cfg.env_path) ∈ ws.cache →
      software_create_env cfg ws r fs = ⟨.ok (), ws, r, fs, []⟩)
    ∧ (("pip-install", cfg.env_path) ∈ ws.cache →
      software_install cfg ws r fs fo = ⟨.ok (), ws, r, fs, []⟩)
    ∧ ("pip-env", cfg.env_path) ∈ (software_create_env cfg ws r fs).ws.cache
    ∧ ("pip-install", cfg.env_path) ∈ (software_install cfg ws r fs fo).ws.cache
    ∧ (software_create_env cfg (software_create_env cfg ws r fs).ws
        (software_create_env cfg ws r fs).runner (software_create_env cfg ws r fs).fs
      = ⟨.ok (), (software_create_env cfg ws r fs).ws,
          (software_create_env cfg ws r fs).runner,
          (software_create_env cfg ws r fs).fs, []⟩)
    ∧ (software_install cfg (software_install cfg ws r fs fo).ws
        (software_install cfg ws r fs fo).runner (software_install cfg ws r fs fo).fs fo
      = ⟨.ok (), (software_install cfg ws r fs fo).ws,
          (software_install cfg ws r fs fo).runner,
          (software_install cfg ws r fs fo).fs, []⟩) :=
  ⟨fun hmem => software_create_env_skip cfg ws r fs hpath hmem,
   fun hmem => software_install_skip cfg ws r fs fo hpath hmem,
   software_create_env_registered cfg ws r fs hpath,
   software_install_registered cfg ws r fs fo hpath,
   software_create_env_skip cfg _ _ _ hpath
     (software_create_env_registered cfg ws r fs hpath),
   software_install_skip cfg _ _ _ fo hpath
     (software_install_registered cfg ws r fs fo hpath)⟩

/-- Witness for C7: a cache pre-populated with both keys makes both
phases skip, leaving workspace, runner and filesystem untouched. -/
theorem c7_witness :
    software_create_env ⟨"/e", true, none⟩
        ⟨[("pip-env", "/e"), ("pip-install", "/e")], true⟩
        ⟨none, false, [], false⟩ ⟨[], 0⟩
      = ⟨.ok (), ⟨[("pip-env", "/e"), ("pip-install", "/e")], true⟩,
          ⟨none, false, [], false⟩, ⟨[], 0⟩, []⟩
    ∧ software_install ⟨"/e", true, none⟩
        ⟨[("pip-env", "/e"), ("pip-install", "/e")], true⟩
        ⟨none, false, [], false⟩ ⟨[], 0⟩ "f"
      = ⟨.ok (), ⟨[("pip-env", "/e"), ("pip-install", "/e")], true⟩,
          ⟨none, false, [], false⟩, ⟨[], 0⟩, []⟩ := by
  have h := c7_phase_cache_at_most_once ⟨"/e", true, none⟩
    ⟨[("pip-env", "/e"), ("pip-install", "/e")], true⟩
    ⟨none, false, [], false⟩ ⟨[], 0⟩ "f" (by decide)
  exact ⟨h.1 (by decide), h.2.1 (by decide)⟩

theorem FS.nodeAt_write_ne (fs : FS) (p q c : String) (h : q ≠ p) :
    (fs.write p c).nodeAt q = fs.nodeAt q := FS.nodeAt_setEntry_ne fs p q _ h

theorem FS.nodeAt_mkdirp_ne (fs : FS) (p q : String) (h : q ≠ p) :
    (fs.mkdirp p).nodeAt q = fs.nodeAt q := FS.nodeAt_setEntry_ne fs p q _ h

theorem FS.nodeAt_mkdirp_self (fs : FS) (p : String) :
    (fs.mkdirp p).nodeAt p = some (.dir fs.clock) := FS.nodeAt_setEntry_self fs p _

theorem FS.existsPath_congr (fs1 fs2 : FS) (p : String)
    (h : fs1.nodeAt p = fs2.nodeAt p) : fs1.existsPath p = fs2.existsPath p := by
  unfold FS.existsPath
  rw [h]

theorem FS.isDirAt_congr (fs1 fs2 : FS) (p : String)
    (h : fs1.nodeAt p = fs2.nodeAt p) : fs1.isDirAt p = fs2.isDirAt p := by
  unfold FS.isDirAt
  rw [h]

theorem create_env_on_ready (r : PipRunner) (fs : FS) (p : String)
    (hex : fs.existsPath p = true) (hdir : fs.isDirAt p = true)
    (hv : fs.existsPath (venvPath p) = true ∨ r.dry_run = true) :
    r.create_env fs p = ⟨.ok (), { r with env_path := some p }, fs, []⟩ := by
  unfold PipRunner.create_env
  rw [if_neg (by simp [hex, hdir]), if_pos hex]
  rcases hv with hv | hv
  · by_cases hdry : r.dry_run = true
    · rw [if_pos hdry]
    · rw [if_neg hdry, if_pos hv]
  · rw [if_pos hv]

/-- C8: `create_env` on a path that exists and is not a directory fails
with the path-conflict `RunnerError` and changes nothing; on an absent
path it creates the directory tree; and whenever the first call does not
hit the path conflict, an immediately repeated call is a successful
no-op — in particular the venv is bootstrapped at most once. -/
theorem c8_create_env_behavior (r : PipRunner) (fs : FS) (p : String) :
    (fs.existsPath p = true → fs.isDirAt p = false →
      r.create_env fs p = ⟨.error (.runner (.pathConflict p)), r, fs, []⟩)
    ∧ (fs.existsPath p = false →
      ((r.create_env fs p).fs.isDirAt p = true
        ∧ (r.create_env fs p).result = .ok ()))
    ∧ (¬ (fs.existsPath p = true ∧ fs.isDirAt p = false) →
      (r.create_env fs p).runner.create_env (r.create_env fs p).fs p
        = ⟨.ok (), (r.create_env fs p).runner, (r.create_env fs p).fs, []⟩) := by
  refine ⟨?_, ?_, ?_⟩
  · intro hex hdir
    unfold PipRunner.create_env
    rw [if_pos (by simp [hex, hdir])]
  · intro hne
    simp only [PipRunner.create_env, hne, Bool.false_and, Bool.false_eq_true, if_false]
    by_cases hdry : r.dry_run = true
    · rw [if_pos hdry]
      exact ⟨by simp [FS.isDirAt, FS.nodeAt_mkdirp_self], rfl⟩
    · rw [if_neg hdry]
      by_cases hv : (fs.mkdirp p).existsPath (venvPath p) = true
      · rw [if_pos hv]
        exact ⟨by simp [FS.isDirAt, FS.nodeAt_mkdirp_self], rfl⟩
      · rw [if_neg hv]
        have h1 : (((fs.mkdirp p).mkdirp (venvPath p)).write
            (activateScriptPath p) "").nodeAt p = (fs.mkdirp p).nodeAt p := by
          rw [FS.nodeAt_write_ne _ _ _ _ (Ne.symm (activateScriptPath_ne_env p)),
            FS.nodeAt_mkdirp_ne _ _ _ (Ne.symm (venvPath_ne_env p))]
        exact ⟨by simp [FS.isDirAt, h1, FS.nodeAt_mkdirp_self], rfl⟩
  · intro hn
    by_cases hex : fs.existsPath p = true
    · have hdir : fs.isDirAt p = true := by
        by_cases hd : fs.isDirAt p = true
        · exact hd
        · exact absurd ⟨hex, by simpa using hd⟩ hn
      have hcond : ¬ ((fs.existsPath p && !fs.isDirAt p) = true) := by
        simp [hex, hdir]
      by_cases hdry : r.dry_run = true
      · have hres : r.create_env fs p
            = ⟨.ok (), { r with env_path := some p }, fs, []⟩ := by
          unfold PipRunner.create_env
          rw [if_neg hcond, if_pos hex, if_pos hdry]
        rw [hres]
        exact create_env_on_ready _ fs p hex hdir (Or.inr hdry)
      · by_cases hv : fs.existsPath (venvPath p) = true
        · have hres : r.create_env fs p
              = ⟨.ok (), { r with env_path := some p }, fs, []⟩ := by
            unfold PipRunner.create_env
            rw [if_neg hcond, if_pos hex, if_neg hdry, if_pos hv]
          rw [hres]
          exact create_env_on_ready _ fs p hex hdir (Or.inl hv)
        · have hres : r.create_env fs p
              = ⟨.ok (), { r with env_path := some p },
                  (fs.mkdirp (venvPath p)).write (activateScriptPath p) "",
                  [.venvBootstrap (venvPath p)]⟩ := by
            unfold PipRunner.create_env
            rw [if_neg hcond, if_pos hex, if_neg hdry, if_neg hv]
          rw [hres]
          have hnp : ((fs.mkdirp (venvPath p)).write (activateScriptPath p) "").nodeAt p
              = fs.nodeAt p := by
            rw [FS.nodeAt_write_ne _ _ _ _ (Ne.symm (activateScriptPath_ne_env p)),
              FS.nodeAt_mkdirp_ne _ _ _ (Ne.symm (venvPath_ne_env p))]
          have hnv : ((fs.mkdirp (venvPath p)).write (activateScriptPath p) "").nodeAt
              (venvPath p) = some (.dir fs.clock) := by
            rw [FS.nodeAt_write_ne _ _ _ _ (Ne.symm (activateScriptPath_ne_venv p)),
              FS.nodeAt_mkdirp_self]
          apply create_env_on_ready
          · rw [FS.existsPath_congr _ fs p hnp]
            exact hex
          · rw [FS.isDirAt_congr _ fs p hnp]
            exact hdir
          · exact Or.inl (by simp [FS.existsPath, hnv])
    · -- absent path: the first call creates the directory (and possibly the venv)
      have hexf : fs.existsPath p = false := by simpa using hex
      have hcond : ¬ ((fs.existsPath p && !fs.isDirAt p) = true) := by simp [hexf]
      by_cases hdry : r.dry_run = true
      · have hres : r.create_env fs p
            = ⟨.ok (), { r with env_path := some p }, fs.mkdirp p, []⟩ := by
          simp only [PipRunner.create_env, hexf, Bool.false_and, Bool.false_eq_true,
            if_false]
          rw [if_pos hdry]
        rw [hres]
        exact create_env_on_ready _ _ p
          (by simp [FS.existsPath, FS.nodeAt_mkdirp_self])
          (by simp [FS.isDirAt, FS.nodeAt_mkdirp_self]) (Or.inr hdry)
      · by_cases hv : (fs.mkdirp p).existsPath (venvPath p) = true
        · have hres : r.create_env fs p
              = ⟨.ok (), { r with env_path := some p }, fs.mkdirp p, []⟩ := by
            simp only [PipRunner.create_env, hexf, Bool.false_and, Bool.false_eq_true,
              if_false]
            rw [if_neg hdry, if_pos hv]
          rw [hres]
          exact create_env_on_ready _ _ p
            (by simp [FS.existsPath, FS.nodeAt_mkdirp_self])
            (by simp [FS.isDirAt, FS.nodeAt_mkdirp_self]) (Or.inl hv)
        · have hres : r.create_env fs p
              = ⟨.ok (), { r with env_path := some p },
                  ((fs.mkdirp p).mkdirp (venvPath p)).write (activateScriptPath p) "",
                  [.venvBootstrap (venvPath p)]⟩ := by
            simp only [PipRunner.create_env, hexf, Bool.false_and, Bool.false_eq_true,
              if_false]
            rw [if_neg hdry, if_neg hv]
          rw [hres]
          have hnp : (((fs.mkdirp p).mkdirp (venvPath p)).write
              (activateScriptPath p) "").nodeAt p = (fs.mkdirp p).nodeAt p := by
            rw [FS.nodeAt_write_ne _ _ _ _ (Ne.symm (activateScriptPath_ne_env p)),
              FS.nodeAt_mkdirp_ne _ _ _ (Ne.symm (venvPath_ne_env p))]
          have hnv : (((fs.mkdirp p).mkdirp (venvPath p)).write
              (activateScriptPath p) "").nodeAt (venvPath p)
              = some (.dir (fs.mkdirp p).clock) := by
            rw [FS.nodeAt_write_ne _ _ _ _ (Ne.symm (activateScriptPath_ne_venv p)),
              FS.nodeAt_mkdirp_self]
          apply create_env_on_ready
          · rw [FS.existsPath_congr _ _ p hnp]
            simp [FS.existsPath, FS.nodeAt_mkdirp_self]
          · rw [FS.isDirAt_congr _ _ p hnp]
            simp [FS.isDirAt, FS.nodeAt_mkdirp_self]
          · exact Or.inl (by simp [FS.existsPath, hnv])

/-- Witness for C8: conflict on an existing regular file, creation on an
absent path, and an idempotent repeat on the created environment. -/
theorem c8_witness :
    PipRunner.create_env ⟨none, false, [], false⟩ ⟨[("/e", .file "" 0)], 1⟩ "/e"
      = ⟨.error (.runner (.pathConflict "/e")), ⟨none, false, [], false⟩,
          ⟨[("/e", .file "" 0)], 1⟩, []⟩
    ∧ (PipRunner.create_env ⟨none, false, [], false⟩ ⟨[], 0⟩ "/e").fs.isDirAt "/e"
      = true
    ∧ (PipRunner.create_env ⟨none, false, [], false⟩ ⟨[], 0⟩ "/e").runner.create_env
        (PipRunner.create_env ⟨none, false, [], false⟩ ⟨[], 0⟩ "/e").fs "/e"
      = ⟨.ok (), (PipRunner.create_env ⟨none, false, [], false⟩ ⟨[], 0⟩ "/e").runner,
          (PipRunner.create_env ⟨none, false, [], false⟩ ⟨[], 0⟩ "/e").fs, []⟩ := by
  have h1 := c8_create_env_behavior ⟨none, false, [], false⟩ ⟨[("/e", .file "" 0)], 1⟩ "/e"
  have h2 := c8_create_env_behavior ⟨none, false, [], false⟩ ⟨[], 0⟩ "/e"
  exact ⟨h1.1 (by decide) (by decide), (h2.2.1 (by decide)).1, h2.2.2 (by decide)⟩
